import Mathlib

set_option autoImplicit false

/-!
Verification of the PM2.5 forecasting pipeline in
`improved_app_with_features.py` (Beijing air-quality project).

The embedding below translates the feature-derivation functions and the
recursive forecasting loop of the source file into Lean.  Python floats
are modelled by `PyFloat` (a rational value, NaN, or signed infinity);
pandas dataframes that always hold a single row in the pipeline are
modelled as Lean structures, with one structure per stage of the feature
pipeline; the opaque regression model is a function from a feature row to
`Except String PyFloat` (an exception, or the value produced by
`float(model.predict(df)[0])`); `st.error`/`st.stop` aborts are modelled
as `Except.error` results carrying the displayed message.
-/

/-- Constant `FORECAST_HOURS = 72` (source line 89). -/
def FORECAST_HOURS : ℕ := 72

/-- Constant `HISTORY_HOURS = 24` (source line 90). -/
def HISTORY_HOURS : ℕ := 24

/-- A Python float: a finite rational, NaN, or a signed infinity. -/
inductive PyFloat where
  | val : ℚ → PyFloat
  | nan : PyFloat
  | inf : PyFloat
  | ninf : PyFloat
deriving DecidableEq

instance : Inhabited PyFloat := ⟨.nan⟩

/-- A pandas timestamp, abstracted as a linear position (`epoch`, hours)
together with the calendar components exposed by the `dt` accessors used
in `add_time_features`. -/
structure Timestamp where
  epoch : ℤ
  year : ℤ
  month : ℕ
  day : ℕ
  hour : ℕ
  dayofweek : ℕ
  dayofyear : ℕ
deriving DecidableEq

/-- The result of `datetime.date()`: the calendar-day part of a timestamp. -/
structure PyDate where
  year : ℤ
  month : ℕ
  day : ℕ
deriving DecidableEq

/-- Python `timestamp.date()`. -/
def Timestamp.date (t : Timestamp) : PyDate :=
  { year := t.year, month := t.month, day := t.day }

/-- One row of the weather dataframe after `WEATHER_RENAME`: a timestamp
plus the eight renamed hourly variables (source lines 99-108). -/
structure WxRow where
  time : Timestamp
  Temp : ℚ
  DewP : ℚ
  Press : ℚ
  WindSpeed : ℚ
  WindDir : ℚ
  Humidity : ℚ
  precipitation : ℚ
  snowfall : ℚ
deriving DecidableEq

/-- One row of the air-quality dataframe: a timestamp and a PM2.5 value. -/
structure AqRow where
  time : Timestamp
  pm25 : PyFloat
deriving DecidableEq

/-- Python comparison `x >= q` on a float against a finite threshold.
Comparisons involving NaN are false. -/
def pyGe (x : PyFloat) (q : ℚ) : Bool :=
  match x with
  | .val a => decide (q ≤ a)
  | .nan => false
  | .inf => true
  | .ninf => false

/-- Python comparison `x <= q` on a float against a finite threshold.
Comparisons involving NaN are false. -/
def pyLe (x : PyFloat) (q : ℚ) : Bool :=
  match x with
  | .val a => decide (a ≤ q)
  | .nan => false
  | .inf => false
  | .ninf => true

/-- Python comparison `x > y` on floats; comparisons with NaN are false. -/
def pyGt (x y : PyFloat) : Bool :=
  match x, y with
  | .nan, _ => false
  | _, .nan => false
  | .inf, .inf => false
  | .inf, _ => true
  | _, .inf => false
  | .ninf, _ => false
  | .val _, .ninf => true
  | .val a, .val b => decide (b < a)

/-- IEEE addition on Python floats (used by `np.mean`'s summation). -/
def pyAdd : PyFloat → PyFloat → PyFloat
  | .nan, _ => .nan
  | _, .nan => .nan
  | .inf, .ninf => .nan
  | .ninf, .inf => .nan
  | .inf, _ => .inf
  | _, .inf => .inf
  | .ninf, _ => .ninf
  | _, .ninf => .ninf
  | .val a, .val b => .val (a + b)

/-- `np.mean` over a list of floats: the sum divided by the length; the
mean of an empty list is NaN. -/
def npMean (xs : List PyFloat) : PyFloat :=
  if xs.length = 0 then .nan
  else
    match xs.foldl pyAdd (.val 0) with
    | .val s => .val (s / (xs.length : ℚ))
    | .nan => .nan
    | .inf => .inf
    | .ninf => .ninf

/-- The finite rational payloads of a float list, or `none` as soon as
one entry is NaN or infinite. -/
def finiteVals (xs : List PyFloat) : Option (List ℚ) :=
  xs.mapM (fun x => match x with | .val q => some q | _ => none)

/-- `np.std` (population standard deviation, `ddof = 0`): the square root
of the mean squared deviation.  Any NaN or infinite entry — and the empty
list — makes the result NaN, modelled as `none`. -/
noncomputable def npStd (xs : List PyFloat) : Option ℝ :=
  match finiteVals xs with
  | none => none
  | some qs =>
    if qs.length = 0 then none
    else
      let m : ℚ := qs.sum / (qs.length : ℚ)
      some (Real.sqrt (((qs.map (fun q => (q - m) ^ 2)).sum / (qs.length : ℚ) : ℚ) : ℝ))

/-- Python `list.tail`-style slice: the last `n` elements (`df.tail(n)`,
and Python's `xs[-n:]`). -/
def tailN {α : Type*} (n : ℕ) (xs : List α) : List α := xs.drop (xs.length - n)

/-- Source `get_season` (lines 208-217). -/
def get_season (month : ℕ) : String :=
  if month = 12 ∨ month = 1 ∨ month = 2 then "Winter"
  else if month = 3 ∨ month = 4 ∨ month = 5 then "Spring"
  else if month = 6 ∨ month = 7 ∨ month = 8 then "Summer"
  else "Fall"

/-- Source `get_time_of_day` (lines 219-228). -/
def get_time_of_day (hour : ℕ) : String :=
  if 5 ≤ hour ∧ hour < 12 then "Morning"
  else if 12 ≤ hour ∧ hour < 17 then "Afternoon"
  else if 17 ≤ hour ∧ hour < 21 then "Evening"
  else "Night"

/-- `np.radians`: degrees to radians. -/
noncomputable def np_radians (d : ℝ) : ℝ := d * Real.pi / 180

/-- Source `calculate_wind_components` (lines 230-241):
`u = -speed * sin(radians dir)`, `v = -speed * cos(radians dir)`. -/
noncomputable def calculate_wind_components (wind_speed wind_direction : ℝ) : ℝ × ℝ :=
  (-wind_speed * Real.sin (np_radians wind_direction),
   -wind_speed * Real.cos (np_radians wind_direction))

/-- Insertion of a rational into a sorted list (helper for sorting). -/
def insSorted (x : ℚ) : List ℚ → List ℚ
  | [] => [x]
  | y :: ys => if x ≤ y then x :: y :: ys else y :: insSorted x ys

/-- Ascending sort of a rational list (helper for the quantile). -/
def sortQ (xs : List ℚ) : List ℚ := xs.foldr insSorted []

/-- `Series.quantile q` with the default linear interpolation: for sorted
data `a_0 … a_{n-1}`, with `pos = q * (n-1)`, interpolate between
`a_{⌊pos⌋}` and its successor. -/
def quantileLinear (xs : List ℚ) (q : ℚ) : ℚ :=
  let s := sortQ xs
  let n := s.length
  if n = 0 then 0
  else
    let pos : ℚ := q * ((n : ℚ) - 1)
    let i : ℕ := pos.floor.toNat
    let a := s.getD i 0
    let b := s.getD (i + 1) a
    a + (pos - (pos.floor : ℚ)) * (b - a)

/-- Source `winsorize` (lines 243-254), on the `pd.Series` branch: clip
every value of the column to its own lower/upper quantile. -/
def winsorize (data : List ℚ) (lower_percentile upper_percentile : ℚ) : List ℚ :=
  let lower_bound := quantileLinear data lower_percentile
  let upper_bound := quantileLinear data upper_percentile
  data.map (fun x => min (max x lower_bound) upper_bound)

/-- Source `calculate_hours_of_precipitation` (lines 256-258):
`sum(1 for p in precip_data if p >= threshold)`. -/
def calculate_hours_of_precipitation (precip_data : List ℚ) (threshold : ℚ) : ℕ :=
  (precip_data.filter (fun p => decide (threshold ≤ p))).length

/-- Source `is_extreme_pm25` (lines 260-262). -/
def is_extreme_pm25 (pm25_value : PyFloat) (threshold : ℚ) : String :=
  if pyGe pm25_value threshold then "Yes" else "No"

/-- Row after `add_time_features` (lines 299-315). -/
structure TimeRow extends WxRow where
  Year : ℤ
  month : ℕ
  Day : ℕ
  hour : ℕ
  day_of_week : ℕ
  day_of_year : ℕ
  is_weekend : ℕ
  time_of_day : String
  Season : String

/-- Source `add_time_features` (lines 299-315), on the single row the
pipeline passes it. -/
def add_time_features (df : WxRow) : TimeRow :=
  { toWxRow := df
    Year := df.time.year
    month := df.time.month
    Day := df.time.day
    hour := df.time.hour
    day_of_week := df.time.dayofweek
    day_of_year := df.time.dayofyear
    is_weekend := if 5 ≤ df.time.dayofweek then 1 else 0
    time_of_day := get_time_of_day df.time.hour
    Season := get_season df.time.month }

/-- Row after `add_weather_features` (lines 317-360). -/
structure WeatherRow2 extends TimeRow where
  WinDir_U : ℝ
  WinDir_V : ℝ
  WindSpeed_Winsorized : ℚ
  HoursOfRain : ℕ
  HoursOfSnow : ℕ
  HoursOfRain_rolling : ℕ
  HoursOfSnow_rolling : ℕ

/-- Source `add_weather_features` (lines 317-360) on the single row the
pipeline passes it.  With a historical-weather dataframe, the
precipitation-hours come from its trailing 24 entries; without one, they
are approximated from the current row (`3` hours if the current value
exceeds `0.1`, else `0`). -/
noncomputable def add_weather_features (df : TimeRow)
    (historical_weather_df : Option (List WxRow)) : WeatherRow2 :=
  let uv := calculate_wind_components (df.WindSpeed : ℝ) (df.WindDir : ℝ)
  let wsw := (winsorize [df.WindSpeed] (1/20) (19/20)).headI
  match historical_weather_df with
  | some hw =>
    let past_24h_precip := tailN 24 (hw.map (fun r => r.precipitation))
    let past_24h_snow := tailN 24 (hw.map (fun r => r.snowfall))
    { toTimeRow := df
      WinDir_U := uv.1
      WinDir_V := uv.2
      WindSpeed_Winsorized := wsw
      HoursOfRain := calculate_hours_of_precipitation past_24h_precip (1/10)
      HoursOfSnow := calculate_hours_of_precipitation past_24h_snow (1/10)
      HoursOfRain_rolling := calculate_hours_of_precipitation past_24h_precip (1/10)
      HoursOfSnow_rolling := calculate_hours_of_precipitation past_24h_snow (1/10) }
  | none =>
    let has_rain : ℕ := if 1/10 < df.precipitation then 1 else 0
    let has_snow : ℕ := if 1/10 < df.snowfall then 1 else 0
    { toTimeRow := df
      WinDir_U := uv.1
      WinDir_V := uv.2
      WindSpeed_Winsorized := wsw
      HoursOfRain := has_rain * 3
      HoursOfSnow := has_snow * 3
      HoursOfRain_rolling := has_rain * 3
      HoursOfSnow_rolling := has_snow * 3 }

/-- Row after `create_lag_features` (lines 264-281). -/
structure LagRow extends WeatherRow2 where
  pm25_lag1 : PyFloat
  pm25_lag2 : PyFloat
  pm25_lag3 : PyFloat
  pm25_lag6 : PyFloat
  pm25_lag12 : PyFloat
  pm25_lag24 : PyFloat

/-- Body of the loop in `create_lag_features`: `history[-lag]` when the
history is long enough, else `history[0] if history else np.nan`. -/
def lagValue (history_pm25 : List PyFloat) (lag : ℕ) : PyFloat :=
  if lag ≤ history_pm25.length then
    history_pm25.getD (history_pm25.length - lag) .nan
  else
    match history_pm25 with
    | [] => .nan
    | h :: _ => h

/-- Source `create_lag_features` (lines 264-281) for the lag periods
`[1, 2, 3, 6, 12, 24]`. -/
def create_lag_features (df : WeatherRow2) (history_pm25 : List PyFloat) : LagRow :=
  { toWeatherRow2 := df
    pm25_lag1 := lagValue history_pm25 1
    pm25_lag2 := lagValue history_pm25 2
    pm25_lag3 := lagValue history_pm25 3
    pm25_lag6 := lagValue history_pm25 6
    pm25_lag12 := lagValue history_pm25 12
    pm25_lag24 := lagValue history_pm25 24 }

/-- Selector mapping a lag period in `[1, 2, 3, 6, 12, 24]` to the
corresponding `pm2.5_lag` column of a row. -/
def pmLag (r : LagRow) (k : ℕ) : PyFloat :=
  if k = 1 then r.pm25_lag1
  else if k = 2 then r.pm25_lag2
  else if k = 3 then r.pm25_lag3
  else if k = 6 then r.pm25_lag6
  else if k = 12 then r.pm25_lag12
  else r.pm25_lag24

/-- Row after `create_rolling_features` (lines 283-297); `none` in the
std column represents `np.nan`. -/
structure RollRow extends LagRow where
  pm25_roll24_mean : PyFloat
  pm25_roll24_std : Option ℝ

/-- Source `create_rolling_features` (lines 283-297): over the last
`min(24, len)` history entries, the mean and — when the window has more
than one entry — the standard deviation, else `0`; NaN on empty history. -/
noncomputable def create_rolling_features (df : LagRow) (history_pm25 : List PyFloat) : RollRow :=
  if 0 < history_pm25.length then
    let window_size := min 24 history_pm25.length
    { toLagRow := df
      pm25_roll24_mean := npMean (tailN window_size history_pm25)
      pm25_roll24_std :=
        if 1 < window_size then npStd (tailN window_size history_pm25) else some 0 }
  else
    { toLagRow := df, pm25_roll24_mean := .nan, pm25_roll24_std := none }

/-- Row after `add_extreme_event_features` (lines 362-382). -/
structure ExtRow extends RollRow where
  Extreme_PM25 : String
  Extreme_Event_VMD_shift1 : String

/-- Source `add_extreme_event_features` (lines 362-382): flags from
`history[-1]` and `history[-2]` with threshold 150, defaulting to "No". -/
def add_extreme_event_features (df : RollRow) (history_pm25 : List PyFloat) : ExtRow :=
  if 0 < history_pm25.length then
    { toRollRow := df
      Extreme_PM25 := is_extreme_pm25 (history_pm25.getD (history_pm25.length - 1) .nan) 150
      Extreme_Event_VMD_shift1 :=
        if 1 < history_pm25.length then
          is_extreme_pm25 (history_pm25.getD (history_pm25.length - 2) .nan) 150
        else "No" }
  else
    { toRollRow := df, Extreme_PM25 := "No", Extreme_Event_VMD_shift1 := "No" }

/-- The complete feature row handed to `model.predict`: the columns
produced by the pipeline plus, on the step-0 path only, the extra
`datetime` display column added by `prepare_features` (`none` models the
absent column / NaN fill). -/
structure PredRow extends ExtRow where
  datetime : Option Timestamp

/-- Insertion into a list kept sorted by timestamp (helper for
`sort_values("time")`). -/
def insByTime (x : AqRow) : List AqRow → List AqRow
  | [] => [x]
  | y :: ys => if x.time.epoch ≤ y.time.epoch then x :: y :: ys else y :: insByTime x ys

/-- `aq_df.sort_values("time")`. -/
def sortByTime (xs : List AqRow) : List AqRow := xs.foldr insByTime []

/-- Source `prepare_features` (lines 384-416) applied to the single
weather row the pipeline passes it: sorts the air-quality history, keeps
the trailing `HISTORY_HOURS` PM2.5 values, then runs the feature stages
and adds the `datetime` column. -/
noncomputable def prepare_features (wx_row : WxRow) (aq_df : List AqRow)
    (historical_weather_df : Option (List WxRow)) : PredRow :=
  let aq_sorted := sortByTime aq_df
  let history_pm25 := tailN HISTORY_HOURS (aq_sorted.map (fun r => r.pm25))
  let r1 := add_time_features wx_row
  let r2 := add_weather_features r1 historical_weather_df
  let r3 := create_lag_features r2 history_pm25
  let r4 := create_rolling_features r3 history_pm25
  let r5 := add_extreme_event_features r4 history_pm25
  { toExtRow := r5, datetime := some wx_row.time }

/-- The per-step feature construction inlined in `build_future_dataframe`
for steps `idx ≥ 1` (lines 453-476): same stages, but
`add_weather_features` is called without historical data and the lag,
rolling and extreme features use the updated prediction history; no
`datetime` column is added. -/
noncomputable def step_features (wx_row : WxRow) (history_pm25 : List PyFloat) : PredRow :=
  let r1 := add_time_features wx_row
  let r2 := add_weather_features r1 none
  let r3 := create_lag_features r2 history_pm25
  let r4 := create_rolling_features r3 history_pm25
  let r5 := add_extreme_event_features r4 history_pm25
  { toExtRow := r5, datetime := none }

/-- The opaque regression model: from a feature row, either an exception
(a raise inside `model.predict` or a failing `float(...)` conversion) or
the float produced by `float(model.predict(df)[0])` — which may be NaN or
infinite, since `float` accepts those. -/
def Model : Type := PredRow → Except String PyFloat

/-- One emitted forecast step: the feature row plus the `PM2.5_pred`
column. -/
structure FinalRow extends PredRow where
  PM25_pred : PyFloat

/-- How a forecast run can abort: `stopped msg` models
`st.error(msg)` followed by `st.stop()`; `indexError` models the pandas
`iloc` failure when the weather dataframe is shorter than the horizon. -/
inductive RunError where
  | stopped : String → RunError
  | indexError : ℕ → RunError
deriving DecidableEq

/-- The body of the `for idx in range(FORECAST_HOURS)` loop of
`build_future_dataframe` (lines 427-493), recursing over the list of
remaining step indices and threading the prediction history.  Step 0 uses
`prepare_features` (with the historical-weather dataframe); later steps
use the inline `step_features` path.  A predict failure aborts the whole
run with the source's message — with the step index in the message only
on the `idx ≥ 1` branch (lines 442 vs 482). -/
noncomputable def runSteps (model : Model) (wx : List WxRow)
    (histWx : Option (List WxRow)) (aqs : List AqRow) :
    List ℕ → List PyFloat → Except RunError (List FinalRow)
  | [], _ => Except.ok []
  | idx :: rest, history_pm25 =>
    match wx.get? idx with
    | none => Except.error (RunError.indexError idx)
    | some wx_row =>
      let pred_df : PredRow :=
        if idx = 0 then prepare_features wx_row aqs histWx
        else step_features wx_row history_pm25
      match model pred_df with
      | Except.error e =>
          Except.error (RunError.stopped
            (if idx = 0 then "Prediction error: " ++ e
             else "Prediction error at step " ++ toString idx ++ ": " ++ e))
      | Except.ok yhat =>
          match runSteps model wx histWx aqs rest (history_pm25 ++ [yhat]) with
          | Except.error err => Except.error err
          | Except.ok rows => Except.ok ({ toPredRow := pred_df, PM25_pred := yhat } :: rows)

/-- Source `build_future_dataframe` (lines 418-494): sort the air-quality
history, seed the PM2.5 history with its trailing `HISTORY_HOURS` values,
and run the recursive loop over `range(FORECAST_HOURS)`. -/
noncomputable def build_future_dataframe (wx : List WxRow) (aq : List AqRow)
    (histWx : Option (List WxRow)) (model : Model) : Except RunError (List FinalRow) :=
  let aqs := sortByTime aq
  let history_pm25 := tailN HISTORY_HOURS (aqs.map (fun r => r.pm25))
  runSteps model wx histWx aqs (List.range FORECAST_HOURS) history_pm25

/-- Source `pm25_to_aqi_category` (lines 497-510), on the Python floats
it actually receives (`PM2.5_pred` values). -/
def pm25_to_aqi_category (pm25 : PyFloat) : String × String :=
  if pyLe pm25 12 then ("Good", "#00e400")
  else if pyLe pm25 (35.4 : ℚ) then ("Moderate", "#ffff00")
  else if pyLe pm25 (55.4 : ℚ) then ("Unhealthy for Sensitive Groups", "#ff7e00")
  else if pyLe pm25 (150.4 : ℚ) then ("Unhealthy", "#ff0000")
  else if pyLe pm25 (250.4 : ℚ) then ("Very Unhealthy", "#8f3f97")
  else ("Hazardous", "#7e0023")

/-- The forecast dataframe as seen by `generate_forecast_summary`: the
forecast rows plus the two AQI columns it may add (absent columns are
`none`). -/
structure SummaryDf where
  rows : List FinalRow
  aqi_category : Option (List String)
  aqi_color : Option (List String)

/-- `Series.idxmax` with start index and current best (first occurrence
of the maximum wins; NaN entries are skipped). -/
def idxmaxFrom : List PyFloat → ℕ → Option (ℕ × PyFloat) → Option ℕ
  | [], _, best => best.map (fun b => b.1)
  | x :: xs, i, best =>
    match x, best with
    | .nan, _ => idxmaxFrom xs (i + 1) best
    | _, none => idxmaxFrom xs (i + 1) (some (i, x))
    | _, some (bi, bv) =>
        if pyGt x bv then idxmaxFrom xs (i + 1) (some (i, x))
        else idxmaxFrom xs (i + 1) (some (bi, bv))

/-- `Series.idxmax`: index of the first maximal non-NaN entry, `none`
when no such entry exists (pandas raises there). -/
def pyIdxmax (xs : List PyFloat) : Option ℕ := idxmaxFrom xs 0 none

/-- English month name, for `strftime("%B")`. -/
def monthName (m : ℕ) : String :=
  if m = 1 then "January" else if m = 2 then "February" else if m = 3 then "March"
  else if m = 4 then "April" else if m = 5 then "May" else if m = 6 then "June"
  else if m = 7 then "July" else if m = 8 then "August" else if m = 9 then "September"
  else if m = 10 then "October" else if m = 11 then "November" else "December"

/-- English weekday name, for `strftime("%A")` (0 = Monday). -/
def weekdayName (d : ℕ) : String :=
  if d = 0 then "Monday" else if d = 1 then "Tuesday" else if d = 2 then "Wednesday"
  else if d = 3 then "Thursday" else if d = 4 then "Friday" else if d = 5 then "Saturday"
  else "Sunday"

/-- Zero-padded two-digit day, for `strftime("%d")`. -/
def two_digit (n : ℕ) : String := if n < 10 then "0" ++ toString n else toString n

/-- `strftime("%A, %B %d")`. -/
def strftime_A_B_d (t : Timestamp) : String :=
  weekdayName t.dayofweek ++ ", " ++ monthName t.month ++ " " ++ two_digit t.day

/-- Default weather row (used only as the `getD` fallback in theorem
statements). -/
def dWxRow : WxRow :=
  { time := { epoch := 0, year := 1970, month := 1, day := 1, hour := 0,
              dayofweek := 0, dayofyear := 1 }
    Temp := 0, DewP := 0, Press := 0, WindSpeed := 0, WindDir := 0,
    Humidity := 0, precipitation := 0, snowfall := 0 }

/-- Default post-weather feature row (used as a concrete argument and as
the `getD` fallback in theorem statements). -/
noncomputable def dWeatherRow2 : WeatherRow2 := add_weather_features (add_time_features dWxRow) none

/-- Default post-lag feature row (a concrete argument for witnesses). -/
noncomputable def dLagRow : LagRow := create_lag_features dWeatherRow2 []

/-- Default full feature row. -/
noncomputable def dPredRow : PredRow := step_features dWxRow []

/-- Default forecast row (the `getD` fallback in theorem statements). -/
noncomputable def dFinalRow : FinalRow := { toPredRow := dPredRow, PM25_pred := .nan }

/-- Source `generate_forecast_summary` (lines 513-550), with the two
wall-clock dates (`datetime.now().date()` and the same plus one day)
passed as parameters.  The in-place column mutation of the caller's
dataframe is modelled by state passing: the first component of the result
is the caller's dataframe after the call.  A NaN `datetime` at the worst
row (any worst row other than step 0) raises, modelled as
`Except.error`; the mutation has happened by then. -/
noncomputable def generate_forecast_summary (today tomorrow : PyDate)
    (df_future : SummaryDf) : SummaryDf × Except String String :=
  if df_future.rows.isEmpty then (df_future, Except.ok "No forecast data available.")
  else
    let cats := df_future.rows.map (fun r => (pm25_to_aqi_category r.PM25_pred).1)
    let colors := df_future.rows.map (fun r => (pm25_to_aqi_category r.PM25_pred).2)
    let df2 : SummaryDf :=
      { rows := df_future.rows, aqi_category := some cats, aqi_color := some colors }
    match pyIdxmax (df_future.rows.map (fun r => r.PM25_pred)) with
    | none => (df2, Except.error "ValueError: attempt to get argmax of an empty sequence")
    | some overall_worst_idx =>
      let overall_worst_category := cats.getD overall_worst_idx ""
      match (df_future.rows.getD overall_worst_idx dFinalRow).datetime with
      | none => (df2, Except.error "AttributeError: float object has no attribute date")
      | some worst_time =>
        let date_str :=
          if worst_time.date = today then "Today"
          else if worst_time.date = tomorrow then "Tomorrow"
          else strftime_A_B_d worst_time
        let hour := worst_time.hour
        let period :=
          if 6 ≤ hour ∧ hour < 12 then "morning (6-12 AM)"
          else if 12 ≤ hour ∧ hour < 18 then "afternoon (12-6 PM)"
          else if 18 ≤ hour then "evening (6-12 PM)"
          else "night (12-6 AM)"
        let first := "Air quality will be worst on " ++ date_str ++ " during " ++ period ++
          ", reaching " ++ overall_worst_category ++ " levels."
        let parts :=
          if overall_worst_category = "Unhealthy" ∨ overall_worst_category = "Very Unhealthy" ∨
              overall_worst_category = "Hazardous" then
            [first, "\n⛔ Outdoor activity is not recommended."]
          else if overall_worst_category = "Unhealthy for Sensitive Groups" then
            [first, "\n⚠️ Sensitive individuals should limit outdoor activity."]
          else [first]
        (df2, Except.ok (String.intercalate "\n\n" parts))

/-- Concrete 72-row weather series with strictly increasing hourly
timestamps (inputs for witnesses and counterexamples). -/
def wx72c : List WxRow :=
  (List.range 72).map (fun (i : ℕ) =>
    { dWxRow with
        time := { epoch := (i : ℤ), year := 2025, month := 1, day := 1, hour := i % 24,
                  dayofweek := 2, dayofyear := 1 } })

/-- Concrete (empty) air-quality history for witnesses. -/
def aq0c : List AqRow := []

/-- Specification-level trajectory of `build_future_dataframe`: the
prediction history (`history_pm25`) as it stands before step `n`,
assuming every earlier model call succeeded.  Step 0 starts from the
trailing `HISTORY_HOURS` values of the sorted air-quality series exactly
as the source does; each successful step appends its prediction.  (When
a call fails the source aborts the whole run, so the value of this
function past a failing step is immaterial; the error branch leaves the
history unchanged.) -/
noncomputable def forecastHistory (model : Model) (wx : List WxRow) (aq : List AqRow)
    (histWx : Option (List WxRow)) : ℕ → List PyFloat
  | 0 => tailN HISTORY_HOURS ((sortByTime aq).map (fun r => r.pm25))
  | n + 1 =>
    let h := forecastHistory model wx aq histWx n
    match model (if n = 0 then prepare_features (wx.getD n dWxRow) (sortByTime aq) histWx
                 else step_features (wx.getD n dWxRow) h) with
    | .ok v => h ++ [v]
    | .error _ => h

/-- Specification-level trajectory of `build_future_dataframe`: the
feature row handed to `model.predict` at step `n` (the `pred_df` of the
step-0 path, the inline `new_row_df` for steps `n ≥ 1`), assuming every
earlier model call succeeded. -/
noncomputable def forecastPredRow (model : Model) (wx : List WxRow) (aq : List AqRow)
    (histWx : Option (List WxRow)) (n : ℕ) : PredRow :=
  if n = 0 then prepare_features (wx.getD n dWxRow) (sortByTime aq) histWx
  else step_features (wx.getD n dWxRow) (forecastHistory model wx aq histWx n)

/-- A concrete model for witnesses: it raises "boom" exactly on feature
rows whose timestamp is hour 37 of `wx72c`, and predicts 1 elsewhere. -/
def m37 : Model := fun r =>
  if r.time.epoch = 37 then Except.error "boom" else Except.ok (PyFloat.val 1)

/-! ## Helper lemmas -/

/-- Projecting away the weather-feature stage recovers its input row. -/
theorem add_weather_features_toTimeRow (df : TimeRow) (o : Option (List WxRow)) :
    (add_weather_features df o).toTimeRow = df := by
  cases o <;> rfl

theorem lagValue_long (hist : List PyFloat) (k : ℕ) (h : k ≤ hist.length) :
    lagValue hist k = hist.getD (hist.length - k) PyFloat.nan := by
  unfold lagValue
  rw [if_pos h]

theorem lagValue_short (hist : List PyFloat) (k : ℕ) (hne : hist ≠ [])
    (hlt : hist.length < k) : lagValue hist k = hist.headI := by
  unfold lagValue
  rw [if_neg (by omega)]
  cases hist with
  | nil => exact absurd rfl hne
  | cons h t => rfl

theorem lagValue_nil (k : ℕ) (hk : 1 ≤ k) : lagValue [] k = PyFloat.nan := by
  unfold lagValue
  rw [if_neg (by simp only [List.length_nil]; omega)]

theorem pmLag_create (df : WeatherRow2) (hist : List PyFloat) (k : ℕ)
    (hk : k ∈ ([1, 2, 3, 6, 12, 24] : List ℕ)) :
    pmLag (create_lag_features df hist) k = lagValue hist k := by
  fin_cases hk <;> rfl

/-! ## Claim theorems -/

/-- C4 (amended): for every nonempty history buffer with fewer than `k`
entries (`k` a lag period), the lag-`k` feature equals the oldest buffer
entry; for the empty buffer it is NaN; with at least `k` entries it is
the value `k` steps before the end. -/
theorem lag_feature_spec (df : WeatherRow2) (hist : List PyFloat) (k : ℕ)
    (hk : k ∈ ([1, 2, 3, 6, 12, 24] : List ℕ)) :
    (hist ≠ [] → hist.length < k → pmLag (create_lag_features df hist) k = hist.headI) ∧
    (hist = [] → pmLag (create_lag_features df hist) k = PyFloat.nan) ∧
    (k ≤ hist.length →
      pmLag (create_lag_features df hist) k = hist.getD (hist.length - k) PyFloat.nan) := by
  have hk1 : 1 ≤ k := by fin_cases hk <;> decide
  refine ⟨fun hne hlt => ?_, fun hnil => ?_, fun hge => ?_⟩ <;> rw [pmLag_create df hist k hk]
  · exact lagValue_short hist k hne hlt
  · subst hnil
    exact lagValue_nil k hk1
  · exact lagValue_long hist k hge

/-- C4 counterexample: the empty buffer has fewer than 1 entries, yet the
lag-1 feature is NaN — not "never NaN", and not "the oldest buffer
entry". -/
theorem lag_feature_empty_nan :
    ([] : List PyFloat).length < 1 ∧
    (create_lag_features dWeatherRow2 []).pm25_lag1 = PyFloat.nan :=
  ⟨by decide, rfl⟩

/-- Witness for C4 at concrete inputs: a one-entry buffer with lag 2
falls back to the oldest entry; a two-entry buffer with lag 2 indexes
two steps before the end. -/
theorem lag_feature_spec_witness :
    pmLag (create_lag_features dWeatherRow2 [PyFloat.val 5]) 2 =
      ([PyFloat.val 5] : List PyFloat).headI ∧
    pmLag (create_lag_features dWeatherRow2 [PyFloat.val 5, PyFloat.val 7]) 2 =
      ([PyFloat.val 5, PyFloat.val 7] : List PyFloat).getD 0 PyFloat.nan :=
  ⟨(lag_feature_spec dWeatherRow2 [PyFloat.val 5] 2 (by decide)).1 (by decide) (by decide),
   (lag_feature_spec dWeatherRow2 [PyFloat.val 5, PyFloat.val 7] 2 (by decide)).2.2 (by decide)⟩

/-- C5: the 24-hour rolling mean and std are computed over the last
`min(24, len)` history entries; a single-entry history yields std
exactly 0 (not NaN); the empty history yields NaN for both. -/
theorem rolling_features_spec (df : LagRow) (hist : List PyFloat) :
    (hist ≠ [] →
      (create_rolling_features df hist).pm25_roll24_mean =
        npMean (tailN (min 24 hist.length) hist) ∧
      (create_rolling_features df hist).pm25_roll24_std =
        (if 1 < min 24 hist.length then npStd (tailN (min 24 hist.length) hist)
         else some 0)) ∧
    (hist.length = 1 → (create_rolling_features df hist).pm25_roll24_std = some 0) ∧
    (hist = [] →
      (create_rolling_features df hist).pm25_roll24_mean = PyFloat.nan ∧
      (create_rolling_features df hist).pm25_roll24_std = none) := by
  refine ⟨fun hne => ?_, fun h1 => ?_, fun hnil => ?_⟩
  · have hpos : 0 < hist.length := List.length_pos.mpr hne
    unfold create_rolling_features
    rw [if_pos hpos]
    exact ⟨rfl, rfl⟩
  · have hpos : 0 < hist.length := by omega
    unfold create_rolling_features
    rw [if_pos hpos]
    show (if 1 < min 24 hist.length then _ else some 0) = some 0
    rw [if_neg (by omega)]
  · subst hnil
    unfold create_rolling_features
    rw [if_neg (by simp)]
    exact ⟨rfl, rfl⟩

/-- Witness for C5 at concrete inputs: a one-entry history gives std 0
and mean over that single entry; the empty history gives NaN for both. -/
theorem rolling_features_spec_witness :
    (create_rolling_features dLagRow [PyFloat.val 3]).pm25_roll24_std = some 0 ∧
    (create_rolling_features dLagRow [PyFloat.val 3]).pm25_roll24_mean =
      npMean (tailN (min 24 ([PyFloat.val 3] : List PyFloat).length) [PyFloat.val 3]) ∧
    (create_rolling_features dLagRow []).pm25_roll24_mean = PyFloat.nan ∧
    (create_rolling_features dLagRow []).pm25_roll24_std = none :=
  ⟨(rolling_features_spec dLagRow [PyFloat.val 3]).2.1 (by decide),
   ((rolling_features_spec dLagRow [PyFloat.val 3]).1 (by decide)).1,
   ((rolling_features_spec dLagRow []).2.2 rfl).1,
   ((rolling_features_spec dLagRow []).2.2 rfl).2⟩

/-- C6: the AQI category of a finite PM2.5 concentration is determined by
the fixed breakpoints with inclusive upper bounds, and the four boundary
values from the spec map as listed. -/
theorem aqi_category_spec :
    (∀ p : ℚ,
      ((pm25_to_aqi_category (PyFloat.val p)).1 = "Good" ↔ p ≤ 12) ∧
      ((pm25_to_aqi_category (PyFloat.val p)).1 = "Moderate" ↔ 12 < p ∧ p ≤ 35.4) ∧
      ((pm25_to_aqi_category (PyFloat.val p)).1 = "Unhealthy for Sensitive Groups" ↔
        35.4 < p ∧ p ≤ 55.4) ∧
      ((pm25_to_aqi_category (PyFloat.val p)).1 = "Unhealthy" ↔ 55.4 < p ∧ p ≤ 150.4) ∧
      ((pm25_to_aqi_category (PyFloat.val p)).1 = "Very Unhealthy" ↔ 150.4 < p ∧ p ≤ 250.4) ∧
      ((pm25_to_aqi_category (PyFloat.val p)).1 = "Hazardous" ↔ 250.4 < p)) ∧
    (pm25_to_aqi_category (PyFloat.val 12)).1 = "Good" ∧
    (pm25_to_aqi_category (PyFloat.val 12.1)).1 = "Moderate" ∧
    (pm25_to_aqi_category (PyFloat.val 150.4)).1 = "Unhealthy" ∧
    (pm25_to_aqi_category (PyFloat.val 150.5)).1 = "Very Unhealthy" := by
  refine ⟨fun p => ?_, by norm_num [pm25_to_aqi_category, pyLe],
    by norm_num [pm25_to_aqi_category, pyLe], by norm_num [pm25_to_aqi_category, pyLe],
    by norm_num [pm25_to_aqi_category, pyLe]⟩
  have e : (pm25_to_aqi_category (PyFloat.val p)).1 =
      if p ≤ 12 then "Good"
      else if p ≤ 35.4 then "Moderate"
      else if p ≤ 55.4 then "Unhealthy for Sensitive Groups"
      else if p ≤ 150.4 then "Unhealthy"
      else if p ≤ 250.4 then "Very Unhealthy"
      else "Hazardous" := by
    simp only [pm25_to_aqi_category, pyLe, decide_eq_true_eq, apply_ite (fun x : String × String => x.1)]
  rw [e]
  split_ifs with h1 h2 h3 h4 h5 <;>
    refine ⟨⟨fun hs => ?_, fun hp => ?_⟩, ⟨fun hs => ?_, fun hp => ?_⟩,
            ⟨fun hs => ?_, fun hp => ?_⟩, ⟨fun hs => ?_, fun hp => ?_⟩,
            ⟨fun hs => ?_, fun hp => ?_⟩, ⟨fun hs => ?_, fun hp => ?_⟩⟩ <;>
    first
      | rfl
      | (exact absurd hs (by decide))
      | linarith
      | (constructor <;> linarith)

/-- C7: with a historical window, the precipitation-hours features count
the entries of the trailing 24-hour window at or above 0.1; without one,
they are 3 when the current row's value strictly exceeds 0.1 and 0
otherwise, independently for rain and snow. -/
theorem precipitation_hours_spec (row : TimeRow) (hw : List WxRow) :
    ((add_weather_features row (some hw)).HoursOfRain =
      (tailN 24 (hw.map (fun r => r.precipitation))).countP
        (fun p => decide ((1/10 : ℚ) ≤ p))) ∧
    ((add_weather_features row (some hw)).HoursOfSnow =
      (tailN 24 (hw.map (fun r => r.snowfall))).countP
        (fun p => decide ((1/10 : ℚ) ≤ p))) ∧
    ((add_weather_features row none).HoursOfRain =
      if (1/10 : ℚ) < row.precipitation then 3 else 0) ∧
    ((add_weather_features row none).HoursOfSnow =
      if (1/10 : ℚ) < row.snowfall then 3 else 0) := by
  refine ⟨?_, ?_, ?_, ?_⟩
  · rw [List.countP_eq_length_filter]
    rfl
  · rw [List.countP_eq_length_filter]
    rfl
  · by_cases h : (1/10 : ℚ) < row.precipitation <;>
      simp [add_weather_features, h]
  · by_cases h : (1/10 : ℚ) < row.snowfall <;>
      simp [add_weather_features, h]

/-- C8: in both branches of the weather-feature derivation, the rolling
precipitation-hours columns are identical to the plain ones. -/
theorem precipitation_rolling_eq (row : TimeRow) (o : Option (List WxRow)) :
    (add_weather_features row o).HoursOfRain_rolling =
      (add_weather_features row o).HoursOfRain ∧
    (add_weather_features row o).HoursOfSnow_rolling =
      (add_weather_features row o).HoursOfSnow := by
  cases o <;> exact ⟨rfl, rfl⟩

/-- C9: the wind components are `U = -s * sin(radians d)` and
`V = -s * cos(radians d)`; for speed 10 and direction 0° they are
`(0, -10)`, and for direction 90° they are `(-10, 0)`. -/
theorem wind_components_spec (s d : ℝ) :
    calculate_wind_components s d =
      (-s * Real.sin (d * Real.pi / 180), -s * Real.cos (d * Real.pi / 180)) ∧
    calculate_wind_components 10 0 = (0, -10) ∧
    calculate_wind_components 10 90 = (-10, 0) := by
  refine ⟨rfl, ?_, ?_⟩
  · simp [calculate_wind_components, np_radians]
  · have h : (90 : ℝ) * Real.pi / 180 = Real.pi / 2 := by ring
    simp [calculate_wind_components, np_radians, h]

/-! ## Loop lemmas -/

theorem add_time_features_toWxRow (w : WxRow) : (add_time_features w).toWxRow = w := rfl

theorem create_lag_features_toWeatherRow2 (df : WeatherRow2) (hist : List PyFloat) :
    (create_lag_features df hist).toWeatherRow2 = df := rfl

theorem create_rolling_features_toLagRow (df : LagRow) (hist : List PyFloat) :
    (create_rolling_features df hist).toLagRow = df := by
  unfold create_rolling_features
  split <;> rfl

theorem add_extreme_event_features_toRollRow (df : RollRow) (hist : List PyFloat) :
    (add_extreme_event_features df hist).toRollRow = df := by
  unfold add_extreme_event_features
  split <;> rfl

theorem step_features_toWeatherRow2 (w : WxRow) (hist : List PyFloat) :
    (step_features w hist).toWeatherRow2 = add_weather_features (add_time_features w) none := by
  simp only [step_features, add_extreme_event_features_toRollRow,
    create_rolling_features_toLagRow, create_lag_features_toWeatherRow2]

theorem prepare_features_toWeatherRow2 (w : WxRow) (aq : List AqRow)
    (o : Option (List WxRow)) :
    (prepare_features w aq o).toWeatherRow2 = add_weather_features (add_time_features w) o := by
  simp only [prepare_features, add_extreme_event_features_toRollRow,
    create_rolling_features_toLagRow, create_lag_features_toWeatherRow2]

theorem step_features_time (w : WxRow) (hist : List PyFloat) :
    (step_features w hist).time = w.time := by
  rw [show (step_features w hist).time
      = (step_features w hist).toWeatherRow2.toTimeRow.toWxRow.time from rfl,
    step_features_toWeatherRow2, add_weather_features_toTimeRow, add_time_features_toWxRow]

theorem prepare_features_time (w : WxRow) (aq : List AqRow) (o : Option (List WxRow)) :
    (prepare_features w aq o).time = w.time := by
  rw [show (prepare_features w aq o).time
      = (prepare_features w aq o).toWeatherRow2.toTimeRow.toWxRow.time from rfl,
    prepare_features_toWeatherRow2, add_weather_features_toTimeRow, add_time_features_toWxRow]

theorem add_weather_features_none_rain (row : TimeRow) :
    (add_weather_features row none).HoursOfRain =
      if (1/10 : ℚ) < row.precipitation then 3 else 0 := by
  by_cases h : (1/10 : ℚ) < row.precipitation <;> simp [add_weather_features, h]

theorem add_weather_features_none_snow (row : TimeRow) :
    (add_weather_features row none).HoursOfSnow =
      if (1/10 : ℚ) < row.snowfall then 3 else 0 := by
  by_cases h : (1/10 : ℚ) < row.snowfall <;> simp [add_weather_features, h]

theorem runSteps_cons_none (model : Model) (wx : List WxRow) (histWx : Option (List WxRow))
    (aqs : List AqRow) (idx : ℕ) (rest : List ℕ) (history : List PyFloat)
    (hg : wx[idx]? = none) :
    runSteps model wx histWx aqs (idx :: rest) history =
      Except.error (RunError.indexError idx) := by
  simp [runSteps, hg]

theorem runSteps_cons_err (model : Model) (wx : List WxRow) (histWx : Option (List WxRow))
    (aqs : List AqRow) (idx : ℕ) (rest : List ℕ) (history : List PyFloat) (w : WxRow)
    (hg : wx[idx]? = some w) (e : String)
    (hv : model (if idx = 0 then prepare_features w aqs histWx
                 else step_features w history) = Except.error e) :
    runSteps model wx histWx aqs (idx :: rest) history =
      Except.error (RunError.stopped
        (if idx = 0 then "Prediction error: " ++ e
         else "Prediction error at step " ++ toString idx ++ ": " ++ e)) := by
  simp [runSteps, hg, hv]

theorem runSteps_cons_ok (model : Model) (wx : List WxRow) (histWx : Option (List WxRow))
    (aqs : List AqRow) (idx : ℕ) (rest : List ℕ) (history : List PyFloat) (w : WxRow)
    (hg : wx[idx]? = some w) (v : PyFloat)
    (hv : model (if idx = 0 then prepare_features w aqs histWx
                 else step_features w history) = Except.ok v) :
    runSteps model wx histWx aqs (idx :: rest) history =
      (runSteps model wx histWx aqs rest (history ++ [v])).map
        (fun rows =>
          { toPredRow := (if idx = 0 then prepare_features w aqs histWx
                          else step_features w history), PM25_pred := v } :: rows) := by
  have h : runSteps model wx histWx aqs (idx :: rest) history =
      match runSteps model wx histWx aqs rest (history ++ [v]) with
      | Except.error err => Except.error err
      | Except.ok rows => Except.ok ({ toPredRow :=
          (if idx = 0 then prepare_features w aqs histWx
           else step_features w history), PM25_pred := v } :: rows) := by
    simp [runSteps, hg, hv]
  rw [h]
  cases runSteps model wx histWx aqs rest (history ++ [v]) <;> rfl

theorem add_weather_features_rolling_rain (row : TimeRow) (o : Option (List WxRow)) :
    (add_weather_features row o).HoursOfRain_rolling =
      (add_weather_features row o).HoursOfRain := by
  cases o <;> rfl

theorem add_weather_features_rolling_snow (row : TimeRow) (o : Option (List WxRow)) :
    (add_weather_features row o).HoursOfSnow_rolling =
      (add_weather_features row o).HoursOfSnow := by
  cases o <;> rfl

/-- Success characterization of the loop: with a model that always
returns a value, running the indices `range' s n` yields `n` rows whose
feature part is `prepare_features` at index 0 and `step_features` (on
some intermediate history) at every later index. -/
theorem runSteps_ok_spec (model : Model) (wx : List WxRow) (histWx : Option (List WxRow))
    (aqs : List AqRow) (hmodel : ∀ r, ∃ v, model r = Except.ok v) :
    ∀ (n s : ℕ) (history : List PyFloat), s + n ≤ wx.length →
      ∃ rows, runSteps model wx histWx aqs (List.range' s n) history = Except.ok rows ∧
        rows.length = n ∧
        (∀ j, j < n → ∃ h2,
          (rows.getD j dFinalRow).toPredRow =
            (if s + j = 0 then prepare_features (wx.getD (s + j) dWxRow) aqs histWx
             else step_features (wx.getD (s + j) dWxRow) h2)) := by
  intro n
  induction n with
  | zero =>
    intro s history _
    exact ⟨[], rfl, rfl, fun j hj => absurd hj (by omega)⟩
  | succ n ih =>
    intro s history hlen
    have hs : s < wx.length := by omega
    have hg : wx[s]? = some (wx.getD s dWxRow) := by
      rw [List.getD_eq_getElem wx dWxRow hs, List.getElem?_eq_getElem hs]
    obtain ⟨v, hv⟩ := hmodel (if s = 0 then prepare_features (wx.getD s dWxRow) aqs histWx
                              else step_features (wx.getD s dWxRow) history)
    obtain ⟨rows', hrun', hlen', hfield'⟩ := ih (s + 1) (history ++ [v]) (by omega)
    refine ⟨{ toPredRow := (if s = 0 then prepare_features (wx.getD s dWxRow) aqs histWx
              else step_features (wx.getD s dWxRow) history), PM25_pred := v } :: rows',
            ?_, by simp [hlen'], ?_⟩
    · rw [List.range'_succ,
        runSteps_cons_ok model wx histWx aqs s (List.range' (s + 1) n) history _ hg v hv,
        hrun']
      rfl
    · intro j hj
      cases j with
      | zero =>
        refine ⟨history, ?_⟩
        simp only [List.getD_cons_zero, Nat.add_zero]
      | succ j =>
        obtain ⟨h2, hh⟩ := hfield' j (by omega)
        refine ⟨h2, ?_⟩
        simp only [List.getD_cons_succ]
        rw [hh, show s + 1 + j = s + (j + 1) from by omega]

/-- Unfolding of the trajectory history by one step. -/
theorem forecastHistory_succ (model : Model) (wx : List WxRow) (aq : List AqRow)
    (histWx : Option (List WxRow)) (n : ℕ) :
    forecastHistory model wx aq histWx (n + 1) =
      (match model (forecastPredRow model wx aq histWx n) with
       | Except.ok v => forecastHistory model wx aq histWx n ++ [v]
       | Except.error _ => forecastHistory model wx aq histWx n) := rfl

/-- The trajectory row at step `n` carries the `n`-th input timestamp. -/
theorem forecastPredRow_time (model : Model) (wx : List WxRow) (aq : List AqRow)
    (histWx : Option (List WxRow)) (n : ℕ) :
    (forecastPredRow model wx aq histWx n).time = (wx.getD n dWxRow).time := by
  unfold forecastPredRow
  split
  · rw [prepare_features_time]
  · rw [step_features_time]

/-- First-failure characterization of the loop: if the model succeeds on
the trajectory rows of every step before `i` and raises `e` at step
`i`'s row, the whole run aborts with the source's message for step `i`
(lines 442 and 482) and returns no rows. -/
theorem runSteps_first_err (model : Model) (wx : List WxRow) (aq : List AqRow)
    (histWx : Option (List WxRow)) :
    ∀ (n s : ℕ), s + n ≤ wx.length →
      ∀ i, s ≤ i → i < s + n →
      (∀ j, s ≤ j → j < i → ∃ v, model (forecastPredRow model wx aq histWx j) = Except.ok v) →
      ∀ e, model (forecastPredRow model wx aq histWx i) = Except.error e →
      runSteps model wx histWx (sortByTime aq) (List.range' s n)
          (forecastHistory model wx aq histWx s) =
        Except.error (RunError.stopped
          (if i = 0 then "Prediction error: " ++ e
           else "Prediction error at step " ++ toString i ++ ": " ++ e)) := by
  intro n
  induction n with
  | zero => intro s _ i hsi hin hok e herr; omega
  | succ n ih =>
    intro s hlen i hsi hin hok e herr
    have hs : s < wx.length := by omega
    have hg : wx[s]? = some (wx.getD s dWxRow) := by
      rw [List.getD_eq_getElem wx dWxRow hs, List.getElem?_eq_getElem hs]
    by_cases hcase : i = s
    · rw [hcase] at herr ⊢
      unfold forecastPredRow at herr
      rw [List.range'_succ]
      exact runSteps_cons_err model wx histWx (sortByTime aq) s (List.range' (s + 1) n)
        (forecastHistory model wx aq histWx s) _ hg e herr
    · obtain ⟨v, hv⟩ := hok s (le_refl s) (by omega)
      have hv' := hv
      unfold forecastPredRow at hv'
      rw [List.range'_succ,
        runSteps_cons_ok model wx histWx (sortByTime aq) s (List.range' (s + 1) n)
          (forecastHistory model wx aq histWx s) _ hg v hv']
      have hH : forecastHistory model wx aq histWx s ++ [v]
          = forecastHistory model wx aq histWx (s + 1) := by
        rw [forecastHistory_succ, hv]
      rw [hH, ih (s + 1) (by omega) i (by omega) (by omega)
        (fun j hj1 hj2 => hok j (by omega) hj2) e herr]
      rfl

/-- C2: for every weather series of at least 72 time-ordered rows and
every model that returns a value on every feature row, the forecast run
produces exactly 72 steps whose timestamps equal, step for step, the
first 72 input timestamps and are strictly increasing. -/
theorem forecast_series_spec (wx : List WxRow) (aq : List AqRow) (histWx : Option (List WxRow))
    (model : Model) (hlen : 72 ≤ wx.length) (hmodel : ∀ r, ∃ v, model r = Except.ok v)
    (hord : List.Chain' (fun a b : WxRow => a.time.epoch < b.time.epoch) wx) :
    ∃ rows, build_future_dataframe wx aq histWx model = Except.ok rows ∧
      rows.length = 72 ∧
      rows.map (fun r => r.time) = (wx.take 72).map (fun r => r.time) ∧
      List.Chain' (fun a b : FinalRow => a.time.epoch < b.time.epoch) rows := by
  obtain ⟨rows, hrun, hlen72, hfield⟩ :=
    runSteps_ok_spec model wx histWx (sortByTime aq) hmodel 72 0
      (tailN HISTORY_HOURS ((sortByTime aq).map (fun r => r.pm25))) (by omega)
  rw [← List.range_eq_range'] at hrun
  have hbuild : build_future_dataframe wx aq histWx model = Except.ok rows := hrun
  have htime : ∀ j, j < 72 → (rows.getD j dFinalRow).time = (wx.getD j dWxRow).time := by
    intro j hj
    obtain ⟨h2, hh⟩ := hfield j hj
    rw [show (rows.getD j dFinalRow).time = (rows.getD j dFinalRow).toPredRow.time from rfl,
      hh]
    simp only [Nat.zero_add]
    by_cases h0 : j = 0
    · subst h0
      rw [if_pos rfl, prepare_features_time]
    · rw [if_neg h0, step_features_time]
  have hmap : rows.map (fun r => r.time) = (wx.take 72).map (fun r => r.time) := by
    apply List.ext_getElem
    · simp only [List.length_map, List.length_take, hlen72]
      omega
    · intro j h1 h2
      simp only [List.length_map, hlen72] at h1
      simp only [List.getElem_map, List.getElem_take]
      have h3 := htime j h1
      rwa [List.getD_eq_getElem rows dFinalRow (by omega : j < rows.length),
        List.getD_eq_getElem wx dWxRow (by omega : j < wx.length)] at h3
  have hchain : List.Chain' (fun a b : FinalRow => a.time.epoch < b.time.epoch) rows := by
    have h1 : List.Chain' (fun a b : Timestamp => a.epoch < b.epoch)
        (rows.map (fun r => r.time)) := by
      rw [hmap, List.chain'_map]
      exact hord.take 72
    rw [List.chain'_map] at h1
    exact h1
  exact ⟨rows, hbuild, hlen72, hmap, hchain⟩

/-- Witness for C2 at a concrete 72-row weather series and a model that
always returns 0. -/
theorem forecast_series_spec_witness :
    72 ≤ wx72c.length ∧
    ∃ rows, build_future_dataframe wx72c aq0c none
        (fun _ => Except.ok (PyFloat.val 0)) = Except.ok rows ∧
      rows.length = 72 ∧
      rows.map (fun r => r.time) = (wx72c.take 72).map (fun r => r.time) ∧
      List.Chain' (fun a b : FinalRow => a.time.epoch < b.time.epoch) rows :=
  ⟨by decide,
   forecast_series_spec wx72c aq0c none (fun _ => Except.ok (PyFloat.val 0)) (by decide)
     (fun r => ⟨PyFloat.val 0, rfl⟩) (by rw [List.chain'_iff_get]; decide)⟩

/-- C1 (amended): if the model's predict call succeeds on the trajectory
rows of the first `i` steps and raises cause `e` at step `i < 72`, the
run aborts with zero forecast steps, surfacing exactly the source's
message for that step: `"Prediction error at step i: e"` when `i ≥ 1`,
but `"Prediction error: e"` — without the step index — when `i = 0`; and
a model that returns a value at every step (including NaN or infinity)
never aborts, producing the full 72-step forecast. -/
theorem forecast_failure_semantics :
    (∀ (model : Model) (wx : List WxRow) (aq : List AqRow) (histWx : Option (List WxRow))
        (i : ℕ) (e : String),
      72 ≤ wx.length → i < 72 →
      (∀ j, j < i → ∃ v, model (forecastPredRow model wx aq histWx j) = Except.ok v) →
      model (forecastPredRow model wx aq histWx i) = Except.error e →
      build_future_dataframe wx aq histWx model =
        Except.error (RunError.stopped
          (if i = 0 then "Prediction error: " ++ e
           else "Prediction error at step " ++ toString i ++ ": " ++ e))) ∧
    (∀ (model : Model) (wx : List WxRow) (aq : List AqRow) (histWx : Option (List WxRow)),
      72 ≤ wx.length → (∀ r, ∃ v, model r = Except.ok v) →
      ∃ rows, build_future_dataframe wx aq histWx model = Except.ok rows ∧
        rows.length = 72) := by
  constructor
  · intro model wx aq histWx i e hlen hi hok herr
    have h := runSteps_first_err model wx aq histWx 72 0 (by omega) i (by omega) (by omega)
      (fun j _ hj => hok j hj) e herr
    rw [← List.range_eq_range'] at h
    exact h
  · intro model wx aq histWx hlen hmodel
    obtain ⟨rows, h1, h2, _⟩ :=
      runSteps_ok_spec model wx histWx (sortByTime aq) hmodel 72 0
        (tailN HISTORY_HOURS ((sortByTime aq).map (fun r => r.pm25))) (by omega)
    rw [← List.range_eq_range'] at h1
    exact ⟨rows, h1, h2⟩

/-- C1 counterexample: a model that returns NaN at every step — a
"non-numeric NaN result" in the claim's terms — does not abort the run;
the forecast completes with 72 steps instead of zero. -/
theorem forecast_nan_no_abort :
    (build_future_dataframe wx72c aq0c none (fun _ => Except.ok PyFloat.nan)).map
      List.length = Except.ok 72 := by
  obtain ⟨rows, h1, h2, _⟩ :=
    runSteps_ok_spec (fun _ => Except.ok PyFloat.nan) wx72c none (sortByTime aq0c)
      (fun r => ⟨PyFloat.nan, rfl⟩) 72 0
      (tailN HISTORY_HOURS ((sortByTime aq0c).map (fun r => r.pm25))) (by decide)
  rw [← List.range_eq_range'] at h1
  have hb : build_future_dataframe wx72c aq0c none (fun _ => Except.ok PyFloat.nan) =
      Except.ok rows := h1
  rw [hb]
  simp [Except.map, h2]

/-- The `j`-th concrete weather row carries hour-`j` as its epoch. -/
theorem wx72c_epoch (j : ℕ) (hj : j < 72) :
    (wx72c.getD j dWxRow).time.epoch = (j : ℤ) := by
  unfold wx72c
  rw [List.getD_eq_getElem _ dWxRow (by simpa using hj), List.getElem_map, List.getElem_range]

/-- Below step 37 the concrete model `m37` returns 1 on the trajectory. -/
theorem m37_below (j : ℕ) (hj : j < 37) :
    m37 (forecastPredRow m37 wx72c aq0c none j) = Except.ok (PyFloat.val 1) := by
  simp only [m37]
  rw [forecastPredRow_time, wx72c_epoch j (by omega), if_neg (by omega)]

/-- At step 37 the concrete model `m37` raises "boom". -/
theorem m37_at37 :
    m37 (forecastPredRow m37 wx72c aq0c none 37) = Except.error "boom" := by
  simp only [m37]
  rw [forecastPredRow_time, wx72c_epoch 37 (by omega), if_pos (by decide)]

/-- Witness for C1 at concrete inputs: a model that raises "boom"
exactly at step 37 of 72 (the spec's scenario) aborts the run with the
message referencing step 37 and the cause, and a model returning 1
everywhere produces a full 72-step forecast. -/
theorem forecast_failure_semantics_witness :
    build_future_dataframe wx72c aq0c none m37 =
      Except.error (RunError.stopped
        ("Prediction error at step " ++ toString (37 : ℕ) ++ ": " ++ "boom")) ∧
    (∃ rows, build_future_dataframe wx72c aq0c none
        (fun _ => Except.ok (PyFloat.val 1)) = Except.ok rows ∧ rows.length = 72) :=
  ⟨forecast_failure_semantics.1 m37 wx72c aq0c none 37 "boom" (by decide) (by decide)
     (fun j hj => ⟨PyFloat.val 1, m37_below j hj⟩) m37_at37,
   forecast_failure_semantics.2 (fun _ => Except.ok (PyFloat.val 1)) wx72c aq0c none
     (by decide) (fun r => ⟨PyFloat.val 1, rfl⟩)⟩

/-- C3: in a successful run with a historical-weather window, the step-0
row computes the precipitation-hours features from the trailing 24
entries of that window, while every row at steps 1..71 computes them
from the current weather row alone; the rolling variants coincide in
both regimes. -/
theorem precipitation_asymmetry_spec (wx : List WxRow) (aq : List AqRow) (hw : List WxRow)
    (model : Model) (hlen : 72 ≤ wx.length) (hmodel : ∀ r, ∃ v, model r = Except.ok v) :
    ∃ rows, build_future_dataframe wx aq (some hw) model = Except.ok rows ∧
      rows.length = 72 ∧
      ((rows.getD 0 dFinalRow).HoursOfRain =
        calculate_hours_of_precipitation (tailN 24 (hw.map (fun r => r.precipitation)))
          (1/10) ∧
       (rows.getD 0 dFinalRow).HoursOfSnow =
        calculate_hours_of_precipitation (tailN 24 (hw.map (fun r => r.snowfall))) (1/10) ∧
       (rows.getD 0 dFinalRow).HoursOfRain_rolling = (rows.getD 0 dFinalRow).HoursOfRain ∧
       (rows.getD 0 dFinalRow).HoursOfSnow_rolling = (rows.getD 0 dFinalRow).HoursOfSnow) ∧
      (∀ j, 1 ≤ j → j < 72 →
        (rows.getD j dFinalRow).HoursOfRain =
          (if (1/10 : ℚ) < (wx.getD j dWxRow).precipitation then 3 else 0) ∧
        (rows.getD j dFinalRow).HoursOfSnow =
          (if (1/10 : ℚ) < (wx.getD j dWxRow).snowfall then 3 else 0) ∧
        (rows.getD j dFinalRow).HoursOfRain_rolling = (rows.getD j dFinalRow).HoursOfRain ∧
        (rows.getD j dFinalRow).HoursOfSnow_rolling =
          (rows.getD j dFinalRow).HoursOfSnow) := by
  obtain ⟨rows, hrun, hlen72, hfield⟩ :=
    runSteps_ok_spec model wx (some hw) (sortByTime aq) hmodel 72 0
      (tailN HISTORY_HOURS ((sortByTime aq).map (fun r => r.pm25))) (by omega)
  rw [← List.range_eq_range'] at hrun
  have hW2 : ∀ j, j < 72 → (rows.getD j dFinalRow).toWeatherRow2 =
      add_weather_features (add_time_features (wx.getD j dWxRow))
        (if j = 0 then some hw else none) := by
    intro j hj
    obtain ⟨h2, hh⟩ := hfield j hj
    rw [show (rows.getD j dFinalRow).toWeatherRow2
        = (rows.getD j dFinalRow).toPredRow.toWeatherRow2 from rfl, hh]
    simp only [Nat.zero_add]
    by_cases h0 : j = 0
    · subst h0
      rw [if_pos rfl, if_pos rfl, prepare_features_toWeatherRow2]
    · rw [if_neg h0, if_neg h0, step_features_toWeatherRow2]
  refine ⟨rows, hrun, hlen72, ?_, ?_⟩
  · have h0 := hW2 0 (by omega)
    rw [if_pos rfl] at h0
    refine ⟨?_, ?_, ?_, ?_⟩
    · rw [show (rows.getD 0 dFinalRow).HoursOfRain
          = (rows.getD 0 dFinalRow).toWeatherRow2.HoursOfRain from rfl, h0]
      rfl
    · rw [show (rows.getD 0 dFinalRow).HoursOfSnow
          = (rows.getD 0 dFinalRow).toWeatherRow2.HoursOfSnow from rfl, h0]
      rfl
    · rw [show (rows.getD 0 dFinalRow).HoursOfRain_rolling
          = (rows.getD 0 dFinalRow).toWeatherRow2.HoursOfRain_rolling from rfl,
        show (rows.getD 0 dFinalRow).HoursOfRain
          = (rows.getD 0 dFinalRow).toWeatherRow2.HoursOfRain from rfl, h0,
        add_weather_features_rolling_rain]
    · rw [show (rows.getD 0 dFinalRow).HoursOfSnow_rolling
          = (rows.getD 0 dFinalRow).toWeatherRow2.HoursOfSnow_rolling from rfl,
        show (rows.getD 0 dFinalRow).HoursOfSnow
          = (rows.getD 0 dFinalRow).toWeatherRow2.HoursOfSnow from rfl, h0,
        add_weather_features_rolling_snow]
  · intro j hj1 hj72
    have h0 := hW2 j hj72
    rw [if_neg (by omega)] at h0
    refine ⟨?_, ?_, ?_, ?_⟩
    · rw [show (rows.getD j dFinalRow).HoursOfRain
          = (rows.getD j dFinalRow).toWeatherRow2.HoursOfRain from rfl, h0,
        add_weather_features_none_rain]
      rfl
    · rw [show (rows.getD j dFinalRow).HoursOfSnow
          = (rows.getD j dFinalRow).toWeatherRow2.HoursOfSnow from rfl, h0,
        add_weather_features_none_snow]
      rfl
    · rw [show (rows.getD j dFinalRow).HoursOfRain_rolling
          = (rows.getD j dFinalRow).toWeatherRow2.HoursOfRain_rolling from rfl,
        show (rows.getD j dFinalRow).HoursOfRain
          = (rows.getD j dFinalRow).toWeatherRow2.HoursOfRain from rfl, h0,
        add_weather_features_rolling_rain]
    · rw [show (rows.getD j dFinalRow).HoursOfSnow_rolling
          = (rows.getD j dFinalRow).toWeatherRow2.HoursOfSnow_rolling from rfl,
        show (rows.getD j dFinalRow).HoursOfSnow
          = (rows.getD j dFinalRow).toWeatherRow2.HoursOfSnow from rfl, h0,
        add_weather_features_rolling_snow]

/-- Witness for C3 at a concrete 72-row weather series, a one-row
historical window and a model that always returns 2. -/
theorem precipitation_asymmetry_spec_witness :
    ∃ rows, build_future_dataframe wx72c aq0c (some [dWxRow])
        (fun _ => Except.ok (PyFloat.val 2)) = Except.ok rows ∧
      rows.length = 72 ∧
      ((rows.getD 0 dFinalRow).HoursOfRain =
        calculate_hours_of_precipitation
          (tailN 24 (([dWxRow] : List WxRow).map (fun r => r.precipitation))) (1/10) ∧
       (rows.getD 0 dFinalRow).HoursOfSnow =
        calculate_hours_of_precipitation
          (tailN 24 (([dWxRow] : List WxRow).map (fun r => r.snowfall))) (1/10) ∧
       (rows.getD 0 dFinalRow).HoursOfRain_rolling = (rows.getD 0 dFinalRow).HoursOfRain ∧
       (rows.getD 0 dFinalRow).HoursOfSnow_rolling = (rows.getD 0 dFinalRow).HoursOfSnow) ∧
      (∀ j, 1 ≤ j → j < 72 →
        (rows.getD j dFinalRow).HoursOfRain =
          (if (1/10 : ℚ) < (wx72c.getD j dWxRow).precipitation then 3 else 0) ∧
        (rows.getD j dFinalRow).HoursOfSnow =
          (if (1/10 : ℚ) < (wx72c.getD j dWxRow).snowfall then 3 else 0) ∧
        (rows.getD j dFinalRow).HoursOfRain_rolling = (rows.getD j dFinalRow).HoursOfRain ∧
        (rows.getD j dFinalRow).HoursOfSnow_rolling =
          (rows.getD j dFinalRow).HoursOfSnow) :=
  precipitation_asymmetry_spec wx72c aq0c [dWxRow] (fun _ => Except.ok (PyFloat.val 2))
    (by decide) (fun r => ⟨PyFloat.val 2, rfl⟩)

/-- C10: summarization mutates the caller's forecast dataframe — after
the call it carries the `aqi_category` and `aqi_color` columns computed
from `PM2.5_pred`, so a dataframe without those columns does not remain
unchanged. -/
theorem summary_mutation_spec (today tomorrow : PyDate) (df : SummaryDf)
    (hne : df.rows ≠ []) :
    (generate_forecast_summary today tomorrow df).1.aqi_category =
      some (df.rows.map (fun r => (pm25_to_aqi_category r.PM25_pred).1)) ∧
    (generate_forecast_summary today tomorrow df).1.aqi_color =
      some (df.rows.map (fun r => (pm25_to_aqi_category r.PM25_pred).2)) ∧
    (df.aqi_category = none → (generate_forecast_summary today tomorrow df).1 ≠ df) := by
  have hemp : df.rows.isEmpty = false := by
    cases h : df.rows with
    | nil => exact absurd h hne
    | cons a l => rfl
  have hfst : (generate_forecast_summary today tomorrow df).1 =
      { rows := df.rows,
        aqi_category := some (df.rows.map (fun r => (pm25_to_aqi_category r.PM25_pred).1)),
        aqi_color := some (df.rows.map (fun r => (pm25_to_aqi_category r.PM25_pred).2)) } := by
    unfold generate_forecast_summary
    rw [hemp]
    simp only [Bool.false_eq_true, if_false]
    cases hidx : pyIdxmax (df.rows.map (fun r => r.PM25_pred)) with
    | none => rfl
    | some i =>
      simp only [hidx]
      cases hdt : (df.rows.getD i dFinalRow).datetime with
      | none => rfl
      | some wt => rfl
  refine ⟨?_, ?_, ?_⟩
  · rw [hfst]
  · rw [hfst]
  · intro hnone heq
    rw [hfst] at heq
    have h2 := congrArg SummaryDf.aqi_category heq
    rw [hnone] at h2
    exact Option.noConfusion h2

/-- Witness for C10 at a concrete one-row dataframe without AQI columns:
summarization does not leave it unchanged. -/
theorem summary_mutation_spec_witness :
    (generate_forecast_summary ⟨2025, 1, 1⟩ ⟨2025, 1, 2⟩
        { rows := [dFinalRow], aqi_category := none, aqi_color := none }).1 ≠
      { rows := [dFinalRow], aqi_category := none, aqi_color := none } :=
  (summary_mutation_spec ⟨2025, 1, 1⟩ ⟨2025, 1, 2⟩
    { rows := [dFinalRow], aqi_category := none, aqi_color := none }
    (List.cons_ne_nil _ _)).2.2 rfl

/-- Witness for C6 at a concrete concentration: 7 µg/m³ is Good. -/
theorem aqi_category_spec_witness :
    (pm25_to_aqi_category (PyFloat.val 7)).1 = "Good" :=
  ((aqi_category_spec.1 7).1).mpr (by norm_num)
